import Mathlib

/-!
Verification of the compressed-tensors quantization/transform core.

This file gives a shallow embedding of the Python sources
`quantization/quant_args.py`, `quantization/quant_scheme.py`,
`quantization/lifecycle/initialize.py` and `transform/factory/hadamard.py`,
and proves properties of that embedding.  Python exceptions are modelled
with `Except String`, tensors by their shape/dtype/fill metadata, and
floating-point element values by exact rationals (reals for the Hadamard
transform).  External collaborators that are not part of the sources
(`register_offload_parameter`, `get_execution_device`, ...) are modelled as
pure data: registering a parameter appends an `Attachment` record, and the
execution device is a field of the module model.
-/

/-- `QuantizationType` enum from quant_args.py (INT / FLOAT). -/
inductive QuantizationType where
  | int
  | float
deriving DecidableEq

/-- `QuantizationStrategy` enum from quant_args.py. -/
inductive QuantizationStrategy where
  | tensor
  | channel
  | group
  | block
  | token
  | tensor_group
deriving DecidableEq

/-- Value of the `dynamic` field: Python `Union[DynamicType, bool]`, where
`DynamicType` has the single member LOCAL.  `off`/`on` model `False`/`True`
and `loc` models `DynamicType.LOCAL`. -/
inductive Dyn where
  | off
  | on
  | loc
deriving DecidableEq

/-- Python truthiness of the `dynamic` field: `False` is falsy; `True` and
`DynamicType.LOCAL` (a non-empty string enum) are truthy. -/
def Dyn.truthy : Dyn → Bool
  | .off => false
  | .on => true
  | .loc => true

/-- `ActivationOrdering` enum from quant_args.py, after alias resolution
(DYNAMIC resolves to GROUP, STATIC resolves to WEIGHT). -/
inductive ActivationOrdering where
  | group
  | weight
deriving DecidableEq

/-- Torch dtypes involved in the sources. -/
inductive Dtype where
  | float16
  | bfloat16
  | float32
  | float64
  | float8_e4m3fn
  | int8
  | int16
  | int32
deriving DecidableEq

/-- A `QuantizationArgs` object after successful construction: the
`model_validator` has resolved `strategy` and `observer`, so `strategy` is
always present.  `observer_kwargs` is carried through Python construction
unchanged and is never read by the code under study, so it is omitted. -/
structure QuantizationArgs where
  num_bits : Int := 8
  type : QuantizationType := .int
  symmetric : Bool := true
  group_size : Option Int := none
  strategy : QuantizationStrategy
  block_structure : Option (List Int) := none
  dynamic : Dyn := .off
  actorder : Option ActivationOrdering := none
  observer : Option String := none
deriving DecidableEq

/-- Field state of a `QuantizationArgs` being constructed, after the
per-field validators' coercions (string to enum, alias resolution) but
before the `model_validator`: `strategy` may still be unset. -/
structure RawQuantizationArgs where
  num_bits : Int := 8
  type : QuantizationType := .int
  symmetric : Bool := true
  group_size : Option Int := none
  strategy : Option QuantizationStrategy := none
  block_structure : Option (List Int) := none
  dynamic : Dyn := .off
  actorder : Option ActivationOrdering := none
  observer : Option String := none
deriving DecidableEq

/-- Strategy inference from `validate_model_after` (quant_args.py): if
`strategy` is unset it is inferred from `group_size` (absent gives TENSOR,
positive gives GROUP, -1 gives CHANNEL, anything else is rejected). -/
def inferStrategyE (strategy : Option QuantizationStrategy)
    (group_size : Option Int) : Except String QuantizationStrategy :=
  match strategy with
  | some s => .ok s
  | none =>
    match group_size with
    | none => .ok .tensor
    | some g =>
      if 0 < g then .ok .group
      else if g = -1 then .ok .channel
      else .error "Invalid group size"

/-- Group size is unset or non-positive (condition of the GROUP check in
`validate_model_after`). -/
def groupSizeMissing : Option Int → Bool
  | none => true
  | some g => decide (g ≤ 0)

/-- Group size is set and positive. -/
def groupSizePositive : Option Int → Bool
  | none => false
  | some g => decide (0 < g)

/-- Body of `validate_model_after` after the strategy has been resolved:
the cross-field rejection checks and the observer defaulting, writing
the resolved fields back into the final object. -/
def validateWithStrategy (m : RawQuantizationArgs)
    (strategy : QuantizationStrategy) : Except String QuantizationArgs :=
  if strategy = .group ∧ groupSizeMissing m.group_size then
    .error "strategy group requires group_size to be set to a positive value"
  else if groupSizePositive m.group_size ∧ strategy ≠ .group ∧
      strategy ≠ .tensor_group then
    .error "group_size requires strategy to be set to group"
  else if m.actorder ≠ none ∧ strategy ≠ .group then
    .error "Must use group quantization strategy in order to apply activation ordering"
  else if m.dynamic.truthy then
    if strategy ∉ [QuantizationStrategy.token, .tensor, .tensor_group,
        .group] then
      .error "One of token tensor tensor_group group must be used for dynamic quantization"
    else if m.dynamic = .loc ∧ strategy ≠ .tensor_group then
      .error "local is only supported for strategy tensor_group"
    else
      .ok { num_bits := m.num_bits, type := m.type,
            symmetric := m.symmetric, group_size := m.group_size,
            strategy := strategy, block_structure := m.block_structure,
            dynamic := m.dynamic, actorder := m.actorder,
            observer :=
              match m.observer with
              | some obs => if m.dynamic = .on then none else some obs
              | none => if m.dynamic = .loc then some "minmax" else none }
  else
    .ok { num_bits := m.num_bits, type := m.type,
          symmetric := m.symmetric, group_size := m.group_size,
          strategy := strategy, block_structure := m.block_structure,
          dynamic := m.dynamic, actorder := m.actorder,
          observer :=
            match m.observer with
            | none => some "minmax"
            | some obs => some obs }

/-- The `model_validator(mode="after")` of `QuantizationArgs`
(quant_args.py, `validate_model_after`): infers the strategy, runs the
cross-field rejection checks, resolves the observer, and writes the
resolved fields back.  The warning emitted when a non-memoryless observer
is dropped for fully dynamic quantization is not modelled (it does not
change the resulting object). -/
def validate_model_after (m : RawQuantizationArgs) :
    Except String QuantizationArgs :=
  match inferStrategyE m.strategy m.group_size with
  | .error e => .error e
  | .ok strategy => validateWithStrategy m strategy

theorem validate_model_after_ok (m : RawQuantizationArgs)
    (s : QuantizationStrategy)
    (h : inferStrategyE m.strategy m.group_size = .ok s) :
    validate_model_after m = validateWithStrategy m s := by
  unfold validate_model_after
  rw [h]

/-- Full construction of a `QuantizationArgs`: the per-field validators
that can still reject a typed value (`validate_group` rejects sizes below
-1, `validate_block_structure` rejects lists whose length is not 2),
followed by the model validator.  The string form "RxC" of
`block_structure` is resolved by the coercion layer and is not modelled. -/
def mkQuantizationArgs (m : RawQuantizationArgs) :
    Except String QuantizationArgs :=
  if (match m.group_size with | some g => decide (g < -1) | none => false) then
    .error "Invalid group size"
  else if (match m.block_structure with
      | some l => decide (l.length ≠ 2)
      | none => false) then
    .error "Invalid block_structure"
  else
    validate_model_after m

/-- C6: constructing `QuantizationArgs` with a truthy `dynamic` fails
unless the (possibly inferred) strategy is TOKEN, TENSOR, TENSOR_GROUP or
GROUP; `dynamic = LOCAL` additionally fails unless the strategy is
TENSOR_GROUP; and a successful construction with `dynamic = LOCAL` and no
observer normalizes the observer to "minmax". -/
theorem c6_dynamic_validation (m : RawQuantizationArgs)
    (s : QuantizationStrategy)
    (hs : inferStrategyE m.strategy m.group_size = .ok s) :
    (m.dynamic.truthy = true →
      s ∉ [QuantizationStrategy.token, .tensor, .tensor_group, .group] →
      ∃ e, mkQuantizationArgs m = .error e) ∧
    (m.dynamic = .loc → s ≠ .tensor_group →
      ∃ e, mkQuantizationArgs m = .error e) ∧
    (m.dynamic = .loc → m.observer = none →
      ∀ a, mkQuantizationArgs m = .ok a → a.observer = some "minmax") := by
  refine ⟨?_, ?_, ?_⟩
  · intro hdyn hmem
    unfold mkQuantizationArgs
    rw [validate_model_after_ok m s hs]
    unfold validateWithStrategy
    split_ifs <;> first
      | exact ⟨_, rfl⟩
      | exact absurd hmem (by assumption)
      | exact absurd hdyn (by assumption)
  · intro hloc hne
    have hdyn : m.dynamic.truthy = true := by rw [hloc]; rfl
    unfold mkQuantizationArgs
    rw [validate_model_after_ok m s hs]
    unfold validateWithStrategy
    split_ifs <;> first
      | exact ⟨_, rfl⟩
      | exact absurd (And.intro hloc hne) (by assumption)
      | exact absurd hdyn (by assumption)
  · intro hloc hobs a ha
    have hdyn : m.dynamic.truthy = true := by rw [hloc]; rfl
    unfold mkQuantizationArgs at ha
    rw [validate_model_after_ok m s hs] at ha
    unfold validateWithStrategy at ha
    split_ifs at ha <;> first
      | exact Except.noConfusion ha
      | exact absurd hdyn (by assumption)
      | (injection ha with h
         rw [← h]
         simp [hobs, hloc])

/-- Witness for C6: `dynamic=True, strategy=CHANNEL` fails; `dynamic=LOCAL,
strategy=GROUP` (with group_size 128) fails; `dynamic=LOCAL,
strategy=TENSOR_GROUP` (group_size 16, no observer) succeeds with observer
"minmax". -/
theorem c6_dynamic_validation_witness :
    (∃ e, mkQuantizationArgs
      { strategy := some .channel, dynamic := .on } = .error e) ∧
    (∃ e, mkQuantizationArgs
      { strategy := some .group, group_size := some 128, dynamic := .loc } =
        .error e) ∧
    (∀ a, mkQuantizationArgs
      { strategy := some .tensor_group, group_size := some 16,
        dynamic := .loc } = .ok a → a.observer = some "minmax") := by
  refine ⟨?_, ?_, ?_⟩
  · exact (c6_dynamic_validation
      { strategy := some .channel, dynamic := .on } .channel rfl).1
      rfl (by decide)
  · exact (c6_dynamic_validation
      { strategy := some .group, group_size := some 128, dynamic := .loc }
      .group rfl).2.1 rfl (by decide)
  · exact (c6_dynamic_validation
      { strategy := some .tensor_group, group_size := some 16,
        dynamic := .loc } .tensor_group rfl).2.2 rfl rfl

/-- Container dtype implied by the spec's bit-width and type
(`QuantizationArgs.pytorch_dtype`, quant_args.py): FLOAT with 8 bits gives
the float8 e4m3 representation, other FLOAT widths are unsupported; INT
widths map to the smallest of int8/int16/int32 that fits. -/
def pytorch_dtype (args : QuantizationArgs) : Except String Dtype :=
  match args.type with
  | .float =>
    if args.num_bits = 8 then .ok .float8_e4m3fn
    else .error "NotImplementedError: Only num_bits in (8) are supported"
  | .int =>
    if args.num_bits ≤ 8 then .ok .int8
    else if args.num_bits ≤ 16 then .ok .int16
    else .ok .int32

/-- Modelled from the spec: `is_fp4` lives in `quantization/utils` which is
not among the sources; per spec section 4.4 it holds exactly when the spec
represents a 4-bit floating quantization. -/
def is_fp4 (args : QuantizationArgs) : Bool :=
  decide (args.num_bits = 4) && decide (args.type = .float)

/-- Ceiling division on integers, the exact value of Python
`math.ceil(a / b)` for integer a and nonzero b (the b = 0 case is guarded
by explicit ZeroDivisionError checks at each use site). -/
def intCeilDiv (a b : Int) : Int := -((-a).fdiv b)

/-- How a freshly allocated parameter tensor is filled: `torch.empty`
(uninitialized), `torch.zeros`, or `torch.full(..., -1)`. -/
inductive Fill where
  | empty
  | zeros
  | fullNeg1
deriving DecidableEq

/-- One call to `register_offload_parameter`: the parameter name is
`base ++ "_" ++ suffix` (mirroring the Python f-string names such as
`weight_scale` and `k_scale`), with the allocated tensor's shape, dtype,
device and fill. -/
structure Attachment where
  base : String
  suffix : String
  shape : List Nat
  dtype : Dtype
  device : String
  fill : Fill
deriving DecidableEq

/-- Full parameter name of an attachment, e.g. "weight_scale". -/
def Attachment.name (a : Attachment) : String := a.base ++ "_" ++ a.suffix

/-- Result of an initialization call: the parameter attachments in
registration order, and the non-fatal warnings emitted. -/
structure InitResult where
  attachments : List Attachment := []
  warnings : List String := []
deriving DecidableEq

/-- The slice of a torch module that initialize.py consults: class name,
presence of the attention projection attributes, whether the module is a
`torch.nn.Linear`, the `weight` parameter (shape and dtype) if any, the
enumerable parameters (name, dtype, device) in `module.parameters()`
order, the execution device reported by `get_execution_device`, and a
previously stored `quantization_scheme` attribute. -/
structure PyModule where
  className : String
  hasKProj : Bool := false
  hasVProj : Bool := false
  hasQkvProj : Bool := false
  isLinear : Bool := false
  weight : Option (List Nat × Dtype) := none
  params : List (String × Dtype × String) := []
  execDevice : String := "cpu"

/-- ASCII lower-casing of one character (model of Python `str.lower` on
the ASCII class names that occur here). -/
def charLower (c : Char) : Char :=
  if 'A' ≤ c ∧ c ≤ 'Z' then Char.ofNat (c.toNat + 32) else c

/-- ASCII upper-casing of one character (model of Python `str.upper`). -/
def charUpper (c : Char) : Char :=
  if 'a' ≤ c ∧ c ≤ 'z' then Char.ofNat (c.toNat - 32) else c

/-- ASCII lower-casing of a string. -/
def strLower (s : String) : String := String.mk (s.data.map charLower)

/-- ASCII upper-casing of a string. -/
def strUpper (s : String) : String := String.mk (s.data.map charUpper)

/-- Does the character list start with the given pattern? -/
def charsStartWith : List Char → List Char → Bool
  | [], _ => true
  | _ :: _, [] => false
  | a :: as, b :: bs => a == b && charsStartWith as bs

/-- Does the character list contain the given pattern as a contiguous
run?  This is Python's `sub in s`. -/
def charsContain (pat : List Char) : List Char → Bool
  | [] => charsStartWith pat []
  | b :: bs => charsStartWith pat (b :: bs) || charsContain pat bs

/-- `is_attention_module` (initialize.py): the lower-cased class name
contains "attention" and the module has a `k_proj`, `v_proj` or
`qkv_proj` attribute. -/
def is_attention_module (m : PyModule) : Bool :=
  charsContain "attention".data (strLower m.className).data &&
    (m.hasKProj || m.hasVProj || m.hasQkvProj)

/-- Step 2 of `_initialize_scale_zero_point` (initialize.py): infer the
expected scale/zero-point shape, together with the non-fatal warnings of
the BLOCK branches.  `weight_shape[-2]` and `weight_shape[-1]` are read
off the reversed shape list; Python raising inside `math.ceil` on a zero
block dimension or on `group_size=None` is modelled by explicit errors. -/
def infer_expected_shape (args : QuantizationArgs) (base_name : String)
    (weight_shape : Option (List Nat)) :
    Except String (List Nat × List String) :=
  let baseShape : List Nat :=
    if args.strategy = .token then [1, 1] else [1]
  if base_name = "weight" ∧ weight_shape.isSome then
    match weight_shape with
    | none => .ok (baseShape, [])
    | some ws =>
      match args.strategy with
      | .channel => .ok ([ws.getD 0 0, 1], [])
      | .group | .tensor_group =>
        match args.group_size with
        | none => .error "TypeError: unsupported operand type for division"
        | some gs =>
          if gs = 0 then .error "ZeroDivisionError"
          else
            let num_groups := intCeilDiv (ws.getD 1 0 : Nat) gs
            .ok ([ws.getD 0 0, (max num_groups 1).toNat], [])
      | .block =>
        match args.block_structure with
        | none =>
          .error "Block quantization requires block_structure to be specified"
        | some bs =>
          match bs with
          | [block_height, block_width] =>
            if block_height = 0 ∨ block_width = 0 then
              .error "ZeroDivisionError"
            else
              let rows : Int := (ws.reverse.getD 1 0 : Nat)
              let cols : Int := (ws.reverse.getD 0 0 : Nat)
              let num_rows_blocks := intCeilDiv rows block_height
              let num_cols_blocks := intCeilDiv cols block_width
              let warns :=
                if rows % block_height ≠ 0 ∨ cols % block_width ≠ 0 then
                  ["Block quantization: tensor shape does not divide evenly by block structure"]
                else []
              .ok ([num_rows_blocks.toNat, num_cols_blocks.toNat], warns)
          | _ => .error "ValueError: not enough values to unpack"
      | _ => .ok (baseShape, [])
  else if args.strategy = .block then
    .ok ([1], ["BLOCK quantization not supported for activations, falling back to tensor-level quantization"])
  else
    .ok (baseShape, [])

/-- Step 3 of `_initialize_scale_zero_point`: pick the scale and
zero-point dtypes.  The explicit `scale_dtype` argument wins, otherwise
the module's weight dtype is read (an `AttributeError` if the module has
no weight); fp4 specs force both dtypes to float8 e4m3; otherwise a scale
dtype outside the floating allow-list silently falls back to float16 and
the zero-point dtype follows `pytorch_dtype`. -/
def resolve_scale_zp_dtype (m : PyModule) (args : QuantizationArgs)
    (scale_dtype : Option Dtype) : Except String (Dtype × Dtype) :=
  match (match scale_dtype with
         | some d => Except.ok d
         | none =>
           match m.weight with
           | some (_, d) => Except.ok d
           | none => Except.error "AttributeError: module has no attribute weight") with
  | .error e => .error e
  | .ok sd =>
    if is_fp4 args then .ok (.float8_e4m3fn, .float8_e4m3fn)
    else
      let sd' := if sd ∈ [Dtype.float16, .bfloat16, .float32, .float64]
        then sd else Dtype.float16
      match pytorch_dtype args with
      | .error e => .error e
      | .ok zp => .ok (sd', zp)

/-- The `g_idx` part of step 4 of `_initialize_scale_zero_point`: only
grouped activation ordering gets a `g_idx`, of shape
`(weight_shape[1],)` filled with -1; indexing a missing or too-short
weight shape raises. -/
def g_idx_attachments (base_name : String) (args : QuantizationArgs)
    (weight_shape : Option (List Nat)) (device : String) :
    Except String (List Attachment) :=
  if args.actorder = some .group then
    match weight_shape with
    | some (_ :: k :: _) =>
      .ok [{ base := base_name, suffix := "g_idx", shape := [k],
             dtype := .int32, device := device, fill := .fullNeg1 }]
    | some _ => .error "IndexError: weight_shape has no second dimension"
    | none => .error "TypeError: NoneType object is not subscriptable"
  else .ok []

/-- `_initialize_scale_zero_point` (initialize.py).  Returns the
parameter attachments in registration order (global_scale, scale,
zero_point, g_idx) plus warnings; fully dynamic specs return before
creating anything.  Note on fidelity: in Python the global scale is
registered before shape inference can raise, so an exception can leave a
partially initialized module; this model reports only the error in that
case, which no claim observes. -/
def _initialize_scale_zero_point (m : PyModule) (base_name : String)
    (args : QuantizationArgs) (weight_shape : Option (List Nat))
    (force_zero_point : Bool) (scale_dtype : Option Dtype) :
    Except String InitResult :=
  if args.dynamic = .on then .ok {}
  else
    match infer_expected_shape args base_name weight_shape with
    | .error e => .error e
    | .ok (expected_shape, warns) =>
      match resolve_scale_zp_dtype m args scale_dtype with
      | .error e => .error e
      | .ok (scaleD, zpD) =>
        match g_idx_attachments base_name args weight_shape m.execDevice with
        | .error e => .error e
        | .ok gidx =>
          .ok { attachments :=
                  (if args.strategy = .tensor_group then
                    [{ base := base_name, suffix := "global_scale",
                       shape := [1], dtype := .float32,
                       device := m.execDevice, fill := .empty }]
                  else []) ++
                  (if args.dynamic = .off then
                    [{ base := base_name, suffix := "scale",
                       shape := expected_shape, dtype := scaleD,
                       device := m.execDevice, fill := .empty }]
                  else []) ++
                  (if force_zero_point || !args.symmetric then
                    [{ base := base_name, suffix := "zero_point",
                       shape := expected_shape, dtype := zpD,
                       device := m.execDevice, fill := .zeros }]
                  else []) ++ gidx,
                warnings := warns }

/-- `_initialize_attn_scales` (initialize.py): one k_scale and one
v_scale, single-element, dtype and device of `next(module.parameters())`
(a StopIteration if the module has no parameters). -/
def _initialize_attn_scales (m : PyModule) : Except String InitResult :=
  match m.params with
  | [] => .error "StopIteration"
  | (_, d, dev) :: _ =>
    .ok { attachments :=
            [{ base := "k", suffix := "scale", shape := [1], dtype := d,
               device := dev, fill := .empty },
             { base := "v", suffix := "scale", shape := [1], dtype := d,
               device := dev, fill := .empty }] }

/-- The quantization scheme grouping up to three role specs
(quant_scheme.py, `QuantizationScheme`). -/
structure QuantizationScheme where
  targets : List String
  weights : Option QuantizationArgs := none
  input_activations : Option QuantizationArgs := none
  output_activations : Option QuantizationArgs := none
deriving DecidableEq

/-- `initialize_module_for_quantization` (initialize.py).  `scheme?` is
the explicit argument; `stored_scheme` models the module's
`quantization_scheme` attribute consulted when no scheme is passed;
`is_kv_cache_scheme` is the (external, `quantization/utils`) result of
`is_kv_cache_quant_scheme scheme`, which suppresses static
output-activation parameters.  The attachments of the three roles appear
in call order: input activations, then weights, then output activations.
Scheme/status stamping and forward-wrapping are side effects with no
bearing on the attachments and are not modelled. -/
def initialize_module_for_quantization (m : PyModule)
    (scheme? : Option QuantizationScheme)
    (stored_scheme : Option QuantizationScheme)
    (force_zero_point : Bool) (scale_dtype : Option Dtype)
    (is_kv_cache_scheme : Bool) : Except String InitResult :=
  match (match scheme? with
         | some s => some s
         | none => stored_scheme) with
  | none => .ok {}
  | some scheme =>
    if is_attention_module m then _initialize_attn_scales m
    else
      match ((match scheme.input_activations with
             | some a => _initialize_scale_zero_point m "input" a none
                 force_zero_point scale_dtype
             | none => .ok {}) : Except String InitResult) with
      | .error e => .error e
      | .ok rIn =>
        match ((match scheme.weights with
               | some a =>
                 if m.weight.isSome then
                   _initialize_scale_zero_point m "weight" a
                     (if m.isLinear then m.weight.map Prod.fst else none)
                     force_zero_point scale_dtype
                 else
                   .ok { warnings := ["module targeted for weight quantization but has no attribute weight, skipping weight quantization"] }
               | none => .ok {}) : Except String InitResult) with
        | .error e => .error e
        | .ok rW =>
          match ((match scheme.output_activations with
                 | some a =>
                   if is_kv_cache_scheme then .ok {}
                   else _initialize_scale_zero_point m "output" a none
                     true scale_dtype
                 | none => .ok {}) : Except String InitResult) with
          | .error e => .error e
          | .ok rOut =>
            .ok { attachments := rIn.attachments ++ rW.attachments ++
                    rOut.attachments,
                  warnings := rIn.warnings ++ rW.warnings ++
                    rOut.warnings }

/-- Does the list of role names consist of blocks following the given
role order?  `processedInOrder order l` greedily strips, for each role in
`order`, the maximal run of that role from the front of `l` and checks
that nothing is left.  `processedInOrder ["weight", "input", "output"] l`
is exactly "the weight attachments come first, then the input ones, then
the output ones". -/
def processedInOrder : List String → List String → Bool
  | _, [] => true
  | [], _ :: _ => false
  | b :: rest, l => processedInOrder rest (l.dropWhile (fun x => x == b))

theorem dropWhile_append_of_all (b : String) (l1 l2 : List String)
    (h : ∀ x ∈ l1, x = b) :
    (l1 ++ l2).dropWhile (fun x => x == b) =
      l2.dropWhile (fun x => x == b) := by
  induction l1 with
  | nil => rfl
  | cons y ys ih =>
    have hy : y = b := h y (by simp)
    subst hy
    simp only [List.cons_append, List.dropWhile_cons, beq_self_eq_true,
      if_true]
    exact ih (fun x hx => h x (by simp [hx]))

theorem dropWhile_eq_nil_of_all (b : String) (l : List String)
    (h : ∀ x ∈ l, x = b) :
    l.dropWhile (fun x => x == b) = [] := by
  have := dropWhile_append_of_all b l [] h
  simpa using this

theorem dropWhile_eq_self_of_ne (b : String) (l : List String)
    (h : ∀ x ∈ l, x ≠ b) :
    l.dropWhile (fun x => x == b) = l := by
  cases l with
  | nil => rfl
  | cons y ys =>
    have hy : (y == b) = false := by
      simpa using h y (by simp)
    simp [List.dropWhile_cons, hy]

theorem processedInOrder_nil (order : List String) :
    processedInOrder order [] = true := by
  cases order <;> rfl

theorem processedInOrder_cons (b : String) (rest : List String)
    (l : List String) :
    processedInOrder (b :: rest) l =
      processedInOrder rest (l.dropWhile (fun x => x == b)) := by
  cases l with
  | nil =>
    show true = processedInOrder rest []
    rw [processedInOrder_nil]
  | cons y ys => rfl

theorem processedInOrder_three (A B C : List Attachment)
    (hA : ∀ a ∈ A, a.base = "input")
    (hB : ∀ a ∈ B, a.base = "weight")
    (hC : ∀ a ∈ C, a.base = "output") :
    processedInOrder ["input", "weight", "output"]
      ((A ++ B ++ C).map Attachment.base) = true := by
  have hmap : (A ++ B ++ C).map Attachment.base =
      A.map Attachment.base ++ (B.map Attachment.base ++
        C.map Attachment.base) := by
    simp [List.map_append]
  rw [hmap, processedInOrder_cons]
  rw [dropWhile_append_of_all "input" _ _
    (by intro x hx; rcases List.mem_map.mp hx with ⟨a, ha, rfl⟩; exact hA a ha)]
  rw [dropWhile_eq_self_of_ne "input" _ (by
    intro x hx
    rcases List.mem_append.mp hx with hx | hx <;>
      rcases List.mem_map.mp hx with ⟨a, ha, rfl⟩
    · rw [hB a ha]; decide
    · rw [hC a ha]; decide)]
  rw [processedInOrder_cons]
  rw [dropWhile_append_of_all "weight" _ _
    (by intro x hx; rcases List.mem_map.mp hx with ⟨a, ha, rfl⟩; exact hB a ha)]
  rw [dropWhile_eq_self_of_ne "weight" _ (by
    intro x hx
    rcases List.mem_map.mp hx with ⟨a, ha, rfl⟩
    rw [hC a ha]; decide)]
  rw [processedInOrder_cons]
  rw [dropWhile_eq_nil_of_all "output" _
    (by intro x hx; rcases List.mem_map.mp hx with ⟨a, ha, rfl⟩; exact hC a ha)]
  rw [processedInOrder_nil]

theorem mem_ite_singleton {α : Type} {c : Prop} [Decidable c] {x a : α}
    (h : a ∈ (if c then [x] else [])) : a = x := by
  split at h
  · simpa using h
  · simp at h

theorem g_idx_attachments_base (b : String) (args : QuantizationArgs)
    (ws : Option (List Nat)) (device : String) (l : List Attachment)
    (h : g_idx_attachments b args ws device = .ok l) :
    ∀ a ∈ l, a.base = b := by
  intro a ha
  unfold g_idx_attachments at h
  split at h
  · split at h
    · cases h
      simp at ha
      subst ha
      rfl
    · exact Except.noConfusion h
    · exact Except.noConfusion h
  · cases h
    simp at ha

theorem szp_attachments_base (m : PyModule) (b : String)
    (args : QuantizationArgs) (ws : Option (List Nat)) (fzp : Bool)
    (sd : Option Dtype) (r : InitResult)
    (h : _initialize_scale_zero_point m b args ws fzp sd = .ok r) :
    ∀ a ∈ r.attachments, a.base = b := by
  intro a ha
  unfold _initialize_scale_zero_point at h
  split at h
  · cases h
    simp at ha
  · split at h
    · exact Except.noConfusion h
    · split at h
      · exact Except.noConfusion h
      · split at h
        · exact Except.noConfusion h
        · rename_i gidx hgidx
          cases h
          simp only [List.append_assoc, List.mem_append] at ha
          rcases ha with ha | ha | ha | ha
          · exact congrArg Attachment.base (mem_ite_singleton ha) |>.trans rfl
          · exact congrArg Attachment.base (mem_ite_singleton ha) |>.trans rfl
          · exact congrArg Attachment.base (mem_ite_singleton ha) |>.trans rfl
          · exact g_idx_attachments_base b args ws m.execDevice gidx hgidx
              a ha

/-- C1 (amended): within one layer's initialization on the general
(non-attention) branch, the roles are processed input activations first,
then weights, then output activations, observable as the order of
parameter attachments. -/
theorem c1_roles_processed_input_weight_output (m : PyModule)
    (scheme? stored : Option QuantizationScheme) (fzp : Bool)
    (sd : Option Dtype) (kv : Bool) (r : InitResult)
    (hatt : is_attention_module m = false)
    (h : initialize_module_for_quantization m scheme? stored fzp sd kv =
      .ok r) :
    processedInOrder ["input", "weight", "output"]
      (r.attachments.map Attachment.base) = true := by
  unfold initialize_module_for_quantization at h
  split at h
  · cases h
    exact processedInOrder_nil _
  · have hne : ¬(is_attention_module m = true) := by simp [hatt]
    rw [if_neg hne] at h
    split at h
    · exact Except.noConfusion h
    · rename_i rIn hIn
      split at h
      · exact Except.noConfusion h
      · rename_i rW hW
        split at h
        · exact Except.noConfusion h
        · rename_i rOut hOut
          cases h
          apply processedInOrder_three
          · intro a ha
            split at hIn
            · exact szp_attachments_base _ _ _ _ _ _ _ hIn a ha
            · cases hIn
              simp at ha
          · intro a ha
            split at hW
            · split at hW
              · exact szp_attachments_base _ _ _ _ _ _ _ hW a ha
              · cases hW
                simp at ha
            · cases hW
              simp at ha
          · intro a ha
            split at hOut
            · split at hOut
              · cases hOut
                simp at ha
              · exact szp_attachments_base _ _ _ _ _ _ _ hOut a ha
            · cases hOut
              simp at ha

/-- A concrete torch.nn.Linear-style module used to exercise C1. -/
def c1Module : PyModule :=
  { className := "Linear", isLinear := true,
    weight := some ([4, 4], .float32),
    params := [("weight", .float32, "cpu")] }

/-- A static per-tensor spec for all three roles. -/
def c1Scheme : QuantizationScheme :=
  { targets := ["Linear"],
    weights := some { strategy := .tensor },
    input_activations := some { strategy := .tensor },
    output_activations := some { strategy := .tensor } }

/-- The attachments produced by initializing `c1Module` under
`c1Scheme`. -/
def c1Result : InitResult :=
  { attachments :=
      [{ base := "input", suffix := "scale", shape := [1],
         dtype := .float32, device := "cpu", fill := .empty },
       { base := "input", suffix := "zero_point", shape := [1],
         dtype := .int8, device := "cpu", fill := .zeros },
       { base := "weight", suffix := "scale", shape := [1],
         dtype := .float32, device := "cpu", fill := .empty },
       { base := "weight", suffix := "zero_point", shape := [1],
         dtype := .int8, device := "cpu", fill := .zeros },
       { base := "output", suffix := "scale", shape := [1],
         dtype := .float32, device := "cpu", fill := .empty },
       { base := "output", suffix := "zero_point", shape := [1],
         dtype := .int8, device := "cpu", fill := .zeros }],
    warnings := [] }

/-- Counterexample to C1 as stated: on a layer with all three role specs
the attachments appear in the order input, input, weight, weight, output,
output, so the roles are not processed weights first. -/
theorem c1_weights_first_counterexample :
    initialize_module_for_quantization c1Module (some c1Scheme) none true
        none false = .ok c1Result ∧
    processedInOrder ["weight", "input", "output"]
      (c1Result.attachments.map Attachment.base) = false := by
  exact ⟨rfl, rfl⟩

/-- Witness for the amended C1 at the concrete layer `c1Module`. -/
theorem c1_roles_processed_witness :
    processedInOrder ["input", "weight", "output"]
      (c1Result.attachments.map Attachment.base) = true :=
  c1_roles_processed_input_weight_output c1Module (some c1Scheme) none
    true none false c1Result rfl rfl

theorem g_idx_attachments_suffix (b : String) (args : QuantizationArgs)
    (ws : Option (List Nat)) (device : String) (l : List Attachment)
    (h : g_idx_attachments b args ws device = .ok l) :
    ∀ a ∈ l, a.suffix = "g_idx" := by
  intro a ha
  unfold g_idx_attachments at h
  split at h
  · split at h
    · cases h
      simp at ha
      subst ha
      rfl
    · exact Except.noConfusion h
    · exact Except.noConfusion h
  · cases h
    simp at ha

theorem szp_err_of_infer_err (m : PyModule) (b : String)
    (args : QuantizationArgs) (ws : Option (List Nat)) (fzp : Bool)
    (sd : Option Dtype) (e : String)
    (hdyn : args.dynamic ≠ .on)
    (hinf : infer_expected_shape args b ws = .error e) :
    _initialize_scale_zero_point m b args ws fzp sd = .error e := by
  unfold _initialize_scale_zero_point
  rw [if_neg hdyn, hinf]

theorem szp_ok_decomp (m : PyModule) (b : String)
    (args : QuantizationArgs) (ws : Option (List Nat)) (fzp : Bool)
    (sd : Option Dtype) (r : InitResult)
    (h : _initialize_scale_zero_point m b args ws fzp sd = .ok r)
    (hdyn : args.dynamic ≠ .on) :
    ∃ shape warns scaleD zpD gidx,
      infer_expected_shape args b ws = .ok (shape, warns) ∧
      resolve_scale_zp_dtype m args sd = .ok (scaleD, zpD) ∧
      g_idx_attachments b args ws m.execDevice = .ok gidx ∧
      r = { attachments :=
              (if args.strategy = .tensor_group then
                [{ base := b, suffix := "global_scale", shape := [1],
                   dtype := .float32, device := m.execDevice,
                   fill := .empty }]
              else []) ++
              (if args.dynamic = .off then
                [{ base := b, suffix := "scale", shape := shape,
                   dtype := scaleD, device := m.execDevice,
                   fill := .empty }]
              else []) ++
              (if fzp || !args.symmetric then
                [{ base := b, suffix := "zero_point", shape := shape,
                   dtype := zpD, device := m.execDevice,
                   fill := .zeros }]
              else []) ++ gidx,
            warnings := warns } := by
  unfold _initialize_scale_zero_point at h
  rw [if_neg hdyn] at h
  split at h
  · exact Except.noConfusion h
  · rename_i shape warns heq1
    split at h
    · exact Except.noConfusion h
    · rename_i scaleD zpD heq2
      split at h
      · exact Except.noConfusion h
      · rename_i gidx heq3
        cases h
        exact ⟨shape, warns, scaleD, zpD, gidx, heq1, heq2, heq3, rfl⟩

theorem infer_shape_group (args : QuantizationArgs) (oc ic : Nat)
    (gs : Int)
    (hstrat : args.strategy = .group ∨ args.strategy = .tensor_group)
    (hgs : args.group_size = some gs) (hne0 : gs ≠ 0) :
    infer_expected_shape args "weight" (some [oc, ic]) =
      .ok ([oc, (max (intCeilDiv ic gs) 1).toNat], []) := by
  rcases hstrat with hs | hs <;>
    (unfold infer_expected_shape
     rw [if_pos ⟨rfl, rfl⟩]
     simp only [hs, hgs]
     rw [if_neg hne0]
     rfl)

theorem infer_shape_block_none (args : QuantizationArgs)
    (ws : List Nat) (hstrat : args.strategy = .block)
    (hbs : args.block_structure = none) :
    infer_expected_shape args "weight" (some ws) =
      .error "Block quantization requires block_structure to be specified" := by
  unfold infer_expected_shape
  rw [if_pos ⟨rfl, rfl⟩]
  simp only [hstrat, hbs]

theorem infer_shape_block (args : QuantizationArgs) (rows cols : Nat)
    (bh bw : Int) (hstrat : args.strategy = .block)
    (hbs : args.block_structure = some [bh, bw])
    (hbh : bh ≠ 0) (hbw : bw ≠ 0) :
    infer_expected_shape args "weight" (some [rows, cols]) =
      .ok ([(intCeilDiv rows bh).toNat, (intCeilDiv cols bw).toNat],
        if (rows : Int) % bh ≠ 0 ∨ (cols : Int) % bw ≠ 0 then
          ["Block quantization: tensor shape does not divide evenly by block structure"]
        else []) := by
  unfold infer_expected_shape
  rw [if_pos ⟨rfl, rfl⟩]
  simp only [hstrat, hbs]
  rw [if_neg (by push_neg; exact ⟨hbh, hbw⟩)]
  rfl

theorem infer_shape_no_weight_shape (args : QuantizationArgs)
    (htok : args.strategy ≠ .token) :
    ∃ warns, infer_expected_shape args "weight" none = .ok ([1], warns) := by
  unfold infer_expected_shape
  rw [if_neg (by simp)]
  by_cases hb : args.strategy = .block
  · rw [if_pos hb]
    exact ⟨_, rfl⟩
  · rw [if_neg hb, if_neg htok]
    exact ⟨[], rfl⟩

/-- C2: a weight role with GROUP or TENSOR_GROUP strategy on a weight of
shape (output_channels, input_features) gets scale and zero-point of
shape (output_channels, max(ceil(input_features / group_size), 1)). -/
theorem c2_group_scale_shape (m : PyModule) (args : QuantizationArgs)
    (oc ic : Nat) (gs : Int) (fzp : Bool) (sd : Option Dtype)
    (r : InitResult)
    (hstrat : args.strategy = .group ∨ args.strategy = .tensor_group)
    (hgs : args.group_size = some gs) (hpos : 0 < gs)
    (hdyn : args.dynamic = .off)
    (h : _initialize_scale_zero_point m "weight" args (some [oc, ic]) fzp
      sd = .ok r) :
    (∃ a ∈ r.attachments, a.suffix = "scale" ∧
      a.shape = [oc, (max (intCeilDiv ic gs) 1).toNat]) ∧
    (∀ a ∈ r.attachments,
      a.suffix = "scale" ∨ a.suffix = "zero_point" →
      a.shape = [oc, (max (intCeilDiv ic gs) 1).toNat]) := by
  obtain ⟨shape, warns, scaleD, zpD, gidx, hinf, hres, hgid, hr⟩ :=
    szp_ok_decomp m "weight" args (some [oc, ic]) fzp sd r h
      (by simp [hdyn])
  rw [infer_shape_group args oc ic gs hstrat hgs hpos.ne'] at hinf
  injection hinf with hinf
  cases hinf
  subst hr
  constructor
  · refine ⟨({ base := "weight", suffix := "scale",
               shape := [oc, (max (intCeilDiv ic gs) 1).toNat],
               dtype := scaleD, device := m.execDevice,
               fill := .empty } : Attachment), ?_, rfl, rfl⟩
    simp only [List.append_assoc, List.mem_append, hdyn, if_pos rfl]
    exact Or.inr (Or.inl (by simp))
  · intro a ha hsz
    simp only [List.append_assoc, List.mem_append] at ha
    rcases ha with ha | ha | ha | ha
    · have hsuf : a.suffix = "global_scale" := by
        rw [mem_ite_singleton ha]
      rcases hsz with h' | h' <;> rw [hsuf] at h' <;>
        exact absurd h' (by decide)
    · rw [mem_ite_singleton ha]
    · rw [mem_ite_singleton ha]
    · have hg := g_idx_attachments_suffix _ _ _ _ _ hgid a ha
      rcases hsz with h' | h' <;> rw [hg] at h' <;>
        exact absurd h' (by decide)

/-- C3: a weight role with BLOCK strategy either fails (block_structure
unset) or gets scale/zero-point of shape (ceil(rows / block_height),
ceil(cols / block_width)), warning exactly when the division is ragged. -/
theorem c3_block_scale_shape (m : PyModule) (args : QuantizationArgs)
    (rows cols : Nat) (bh bw : Int) (fzp : Bool) (sd : Option Dtype)
    (hstrat : args.strategy = .block) (hdyn : args.dynamic = .off) :
    (args.block_structure = none →
      _initialize_scale_zero_point m "weight" args (some [rows, cols])
        fzp sd =
        .error "Block quantization requires block_structure to be specified") ∧
    (∀ r, args.block_structure = some [bh, bw] → bh ≠ 0 → bw ≠ 0 →
      _initialize_scale_zero_point m "weight" args (some [rows, cols])
        fzp sd = .ok r →
      (∀ a ∈ r.attachments,
        a.suffix = "scale" ∨ a.suffix = "zero_point" →
        a.shape = [(intCeilDiv rows bh).toNat, (intCeilDiv cols bw).toNat]) ∧
      (r.warnings ≠ [] ↔
        ((rows : Int) % bh ≠ 0 ∨ (cols : Int) % bw ≠ 0))) := by
  constructor
  · intro hbs
    exact szp_err_of_infer_err m "weight" args (some [rows, cols]) fzp sd
      _ (by simp [hdyn]) (infer_shape_block_none args [rows, cols] hstrat hbs)
  · intro r hbs hbh hbw h
    obtain ⟨shape, warns, scaleD, zpD, gidx, hinf, hres, hgid, hr⟩ :=
      szp_ok_decomp m "weight" args (some [rows, cols]) fzp sd r h
        (by simp [hdyn])
    rw [infer_shape_block args rows cols bh bw hstrat hbs hbh hbw] at hinf
    injection hinf with hinf
    cases hinf
    subst hr
    constructor
    · intro a ha hsz
      simp only [List.append_assoc, List.mem_append] at ha
      rcases ha with ha | ha | ha | ha
      · have hsuf : a.suffix = "global_scale" := by
          rw [mem_ite_singleton ha]
        rcases hsz with h' | h' <;> rw [hsuf] at h' <;>
          exact absurd h' (by decide)
      · rw [mem_ite_singleton ha]
      · rw [mem_ite_singleton ha]
      · have hg := g_idx_attachments_suffix _ _ _ _ _ hgid a ha
        rcases hsz with h' | h' <;> rw [hg] at h' <;>
          exact absurd h' (by decide)
    · show (if (rows : Int) % bh ≠ 0 ∨ (cols : Int) % bw ≠ 0 then
          ["Block quantization: tensor shape does not divide evenly by block structure"]
        else []) ≠ [] ↔ _
      by_cases hc : (rows : Int) % bh ≠ 0 ∨ (cols : Int) % bw ≠ 0
      · rw [if_pos hc]
        exact ⟨fun _ => hc, fun _ => List.cons_ne_nil _ _⟩
      · rw [if_neg hc]
        exact ⟨fun h' => absurd rfl h', fun h' => absurd h' hc⟩

/-- A Linear layer with a (512, 2048) bfloat16 weight. -/
def c2Module : PyModule :=
  { className := "Linear", isLinear := true,
    weight := some ([512, 2048], .bfloat16),
    params := [("weight", .bfloat16, "cpu")] }

/-- INT4 GROUP weight spec with group_size 128. -/
def c2Args128 : QuantizationArgs :=
  { num_bits := 4, type := .int, group_size := some 128,
    strategy := .group }

/-- INT4 GROUP weight spec with group_size 300. -/
def c2Args300 : QuantizationArgs :=
  { num_bits := 4, type := .int, group_size := some 300,
    strategy := .group }

/-- Attachments for the (512, 2048) weight with group_size 128. -/
def c2Result128 : InitResult :=
  { attachments :=
      [{ base := "weight", suffix := "scale", shape := [512, 16],
         dtype := .bfloat16, device := "cpu", fill := .empty },
       { base := "weight", suffix := "zero_point", shape := [512, 16],
         dtype := .int8, device := "cpu", fill := .zeros }] }

/-- Attachments for the (512, 2048) weight with group_size 300. -/
def c2Result300 : InitResult :=
  { attachments :=
      [{ base := "weight", suffix := "scale", shape := [512, 7],
         dtype := .bfloat16, device := "cpu", fill := .empty },
       { base := "weight", suffix := "zero_point", shape := [512, 7],
         dtype := .int8, device := "cpu", fill := .zeros }] }

/-- Witness for C2: a (512, 2048) weight with group_size 128 yields scale
shape (512, 16), and with group_size 300 yields (512, 7). -/
theorem c2_group_scale_shape_witness :
    ((∃ a ∈ c2Result128.attachments, a.suffix = "scale" ∧
        a.shape = [512, (max (intCeilDiv 2048 128) 1).toNat]) ∧
      (∀ a ∈ c2Result128.attachments,
        a.suffix = "scale" ∨ a.suffix = "zero_point" →
        a.shape = [512, (max (intCeilDiv 2048 128) 1).toNat])) ∧
    ((∃ a ∈ c2Result300.attachments, a.suffix = "scale" ∧
        a.shape = [512, (max (intCeilDiv 2048 300) 1).toNat]) ∧
      (∀ a ∈ c2Result300.attachments,
        a.suffix = "scale" ∨ a.suffix = "zero_point" →
        a.shape = [512, (max (intCeilDiv 2048 300) 1).toNat])) ∧
    (max (intCeilDiv 2048 128) 1).toNat = 16 ∧
    (max (intCeilDiv 2048 300) 1).toNat = 7 :=
  ⟨c2_group_scale_shape c2Module c2Args128 512 2048 128 true none
      c2Result128 (Or.inl rfl) rfl (by decide) rfl rfl,
   c2_group_scale_shape c2Module c2Args300 512 2048 300 true none
      c2Result300 (Or.inl rfl) rfl (by decide) rfl rfl,
   by decide, by decide⟩

/-- A Linear layer with a float32 weight, used for the BLOCK cases. -/
def c3Module : PyModule :=
  { className := "Linear", isLinear := true,
    weight := some ([512, 512], .float32),
    params := [("weight", .float32, "cpu")] }

/-- INT8 BLOCK weight spec with block_structure [128, 128]. -/
def c3Args : QuantizationArgs :=
  { strategy := .block, block_structure := some [128, 128] }

/-- INT8 BLOCK weight spec with block_structure unset. -/
def c3ArgsNB : QuantizationArgs := { strategy := .block }

/-- Attachments for a (512, 512) weight under [128, 128] blocks. -/
def c3Result512 : InitResult :=
  { attachments :=
      [{ base := "weight", suffix := "scale", shape := [4, 4],
         dtype := .float32, device := "cpu", fill := .empty },
       { base := "weight", suffix := "zero_point", shape := [4, 4],
         dtype := .int8, device := "cpu", fill := .zeros }] }

/-- Attachments for a (500, 500) weight under [128, 128] blocks. -/
def c3Result500 : InitResult :=
  { attachments :=
      [{ base := "weight", suffix := "scale", shape := [4, 4],
         dtype := .float32, device := "cpu", fill := .empty },
       { base := "weight", suffix := "zero_point", shape := [4, 4],
         dtype := .int8, device := "cpu", fill := .zeros }],
    warnings :=
      ["Block quantization: tensor shape does not divide evenly by block structure"] }

/-- Witness for C3: missing block_structure raises; (512, 512) under
[128, 128] gives scale shape (4, 4) without warning; (500, 500) gives
(4, 4) with a warning. -/
theorem c3_block_scale_shape_witness :
    (_initialize_scale_zero_point c3Module "weight" c3ArgsNB
      (some [512, 512]) true none =
      .error "Block quantization requires block_structure to be specified") ∧
    ((∀ a ∈ c3Result512.attachments,
        a.suffix = "scale" ∨ a.suffix = "zero_point" →
        a.shape = [(intCeilDiv 512 128).toNat, (intCeilDiv 512 128).toNat]) ∧
      (c3Result512.warnings ≠ [] ↔
        ((512 : Int) % 128 ≠ 0 ∨ (512 : Int) % 128 ≠ 0))) ∧
    ((∀ a ∈ c3Result500.attachments,
        a.suffix = "scale" ∨ a.suffix = "zero_point" →
        a.shape = [(intCeilDiv 500 128).toNat, (intCeilDiv 500 128).toNat]) ∧
      (c3Result500.warnings ≠ [] ↔
        ((500 : Int) % 128 ≠ 0 ∨ (500 : Int) % 128 ≠ 0))) ∧
    (intCeilDiv 512 128).toNat = 4 ∧ (intCeilDiv 500 128).toNat = 4 ∧
    c3Result512.warnings = [] ∧ c3Result500.warnings ≠ [] :=
  ⟨(c3_block_scale_shape c3Module c3ArgsNB 512 512 128 128 true none
      rfl rfl).1 rfl,
   (c3_block_scale_shape c3Module c3Args 512 512 128 128 true none
      rfl rfl).2 c3Result512 rfl (by decide) (by decide) rfl,
   (c3_block_scale_shape c3Module c3Args 500 500 128 128 true none
      rfl rfl).2 c3Result500 rfl (by decide) (by decide) rfl,
   by decide, by decide, rfl, by decide⟩

/-- C7: initializing a detected attention-style module attaches exactly
k_scale and v_scale, single-element, with the dtype and device of the
module's first parameter; no role-based parameters are attached. -/
theorem c7_attention_init (m : PyModule) (scheme : QuantizationScheme)
    (stored : Option QuantizationScheme) (fzp : Bool) (sd : Option Dtype)
    (kv : Bool) (n : String) (d : Dtype) (dev : String)
    (rest : List (String × Dtype × String))
    (hatt : is_attention_module m = true)
    (hp : m.params = (n, d, dev) :: rest) :
    initialize_module_for_quantization m (some scheme) stored fzp sd kv =
      .ok { attachments :=
              [{ base := "k", suffix := "scale", shape := [1], dtype := d,
                 device := dev, fill := .empty },
               { base := "v", suffix := "scale", shape := [1], dtype := d,
                 device := dev, fill := .empty }],
            warnings := [] } ∧
    List.map Attachment.name
        [({ base := "k", suffix := "scale", shape := [1], dtype := d,
            device := dev, fill := .empty } : Attachment),
         ({ base := "v", suffix := "scale", shape := [1], dtype := d,
            device := dev, fill := .empty } : Attachment)] =
      ["k_scale", "v_scale"] := by
  constructor
  · have step : initialize_module_for_quantization m (some scheme) stored
        fzp sd kv = _initialize_attn_scales m := by
      unfold initialize_module_for_quantization
      exact if_pos hatt
    rw [step]
    unfold _initialize_attn_scales
    rw [hp]
  · rfl

/-- An attention-style module with one float16 parameter on cuda:0. -/
def c7Module : PyModule :=
  { className := "LlamaAttention", hasKProj := true,
    params := [("q_proj.weight", .float16, "cuda:0")] }

/-- Witness for C7 on a concrete attention module. -/
theorem c7_attention_init_witness :
    initialize_module_for_quantization c7Module
        (some { targets := ["self_attn"] }) none true none false =
      .ok { attachments :=
              [{ base := "k", suffix := "scale", shape := [1],
                 dtype := .float16, device := "cuda:0", fill := .empty },
               { base := "v", suffix := "scale", shape := [1],
                 dtype := .float16, device := "cuda:0", fill := .empty }],
            warnings := [] } ∧
    List.map Attachment.name
        [({ base := "k", suffix := "scale", shape := [1],
            dtype := .float16, device := "cuda:0",
            fill := .empty } : Attachment),
         ({ base := "v", suffix := "scale", shape := [1],
            dtype := .float16, device := "cuda:0",
            fill := .empty } : Attachment)] =
      ["k_scale", "v_scale"] :=
  c7_attention_init c7Module { targets := ["self_attn"] } none true none
    false "q_proj.weight" .float16 "cuda:0" [] rfl rfl

theorem szp_dynamic_on (m : PyModule) (b : String)
    (args : QuantizationArgs) (ws : Option (List Nat)) (fzp : Bool)
    (sd : Option Dtype) (hd : args.dynamic = .on) :
    _initialize_scale_zero_point m b args ws fzp sd = .ok {} := by
  unfold _initialize_scale_zero_point
  rw [if_pos hd]

/-- C9: for a weight-bearing module that is not a torch.nn.Linear, no
weight shape is passed to shape inference, so under CHANNEL, GROUP,
TENSOR_GROUP or BLOCK weight strategy the attached weight_scale is a
single-element scalar. -/
theorem c9_non_linear_weight_scale_scalar (m : PyModule)
    (scheme : QuantizationScheme) (args : QuantizationArgs)
    (stored : Option QuantizationScheme) (fzp : Bool) (sd : Option Dtype)
    (kv : Bool) (r : InitResult)
    (hatt : is_attention_module m = false)
    (hlin : m.isLinear = false)
    (hargs : scheme.weights = some args)
    (hstrat : args.strategy = .channel ∨ args.strategy = .group ∨
      args.strategy = .tensor_group ∨ args.strategy = .block)
    (h : initialize_module_for_quantization m (some scheme) stored fzp sd
      kv = .ok r) :
    ∀ a ∈ r.attachments, a.base = "weight" → a.suffix = "scale" →
      a.shape = [1] := by
  intro a ha habase hasuf
  have htok : args.strategy ≠ .token := by
    rcases hstrat with hs | hs | hs | hs <;> rw [hs] <;> decide
  unfold initialize_module_for_quantization at h
  split at h
  · rename_i heq
    exact Option.noConfusion heq
  · rename_i scheme2 heq
    have heq2 : scheme = scheme2 := Option.some.inj heq
    subst heq2
    rw [if_neg (by simp [hatt])] at h
    split at h
    · exact Except.noConfusion h
    · rename_i rIn hIn
      split at h
      · exact Except.noConfusion h
      · rename_i rW hW
        split at h
        · exact Except.noConfusion h
        · rename_i rOut hOut
          cases h
          simp only [List.mem_append] at ha
          rcases ha with (ha | ha) | ha
          · -- input attachments have base "input"
            split at hIn
            · have := szp_attachments_base _ _ _ _ _ _ _ hIn a ha
              rw [this] at habase
              exact absurd habase (by decide)
            · cases hIn
              simp at ha
          · -- weight attachments
            split at hW
            case h_2 heq2 =>
              rw [hargs] at heq2
              exact Option.noConfusion heq2
            case h_1 a2 heq2 =>
            have ha2 : a2 = args := by
              rw [hargs] at heq2
              exact (Option.some.inj heq2).symm
            rw [ha2] at hW
            split at hW
            · -- module has a weight store
              rw [hlin] at hW
              simp only [Bool.false_eq_true, if_false] at hW
              by_cases hd : args.dynamic = .on
              · rw [szp_dynamic_on m "weight" args none fzp sd hd] at hW
                cases hW
                simp at ha
              · obtain ⟨shape, warns, scaleD, zpD, gidx, hinf, hres, hgid,
                  hr⟩ := szp_ok_decomp m "weight" args none fzp sd rW hW hd
                obtain ⟨warns0, hinf0⟩ :=
                  infer_shape_no_weight_shape args htok
                rw [hinf0] at hinf
                injection hinf with hinf
                cases hinf
                subst hr
                simp only [List.append_assoc, List.mem_append] at ha
                rcases ha with ha | ha | ha | ha
                · have hsuf : a.suffix = "global_scale" := by
                    rw [mem_ite_singleton ha]
                  rw [hsuf] at hasuf
                  exact absurd hasuf (by decide)
                · rw [mem_ite_singleton ha]
                · have hsuf : a.suffix = "zero_point" := by
                    rw [mem_ite_singleton ha]
                  rw [hsuf] at hasuf
                  exact absurd hasuf (by decide)
                · have hsuf := g_idx_attachments_suffix _ _ _ _ _ hgid a ha
                  rw [hsuf] at hasuf
                  exact absurd hasuf (by decide)
            · -- no weight store: only a warning, no attachments
              cases hW
              simp at ha
          · -- output attachments have base "output"
            split at hOut
            · split at hOut
              · cases hOut
                simp at ha
              · have := szp_attachments_base _ _ _ _ _ _ _ hOut a ha
                rw [this] at habase
                exact absurd habase (by decide)
            · cases hOut
              simp at ha

/-- A non-Linear module (a conv-style layer) carrying a 4-d weight. -/
def c9Module : PyModule :=
  { className := "Conv2d", isLinear := false,
    weight := some ([16, 8, 3, 3], .float32),
    params := [("weight", .float32, "cpu")] }

/-- CHANNEL weight spec used against the non-Linear module. -/
def c9Scheme : QuantizationScheme :=
  { targets := ["Conv2d"],
    weights := some { strategy := .channel, group_size := some (-1) } }

/-- Attachments produced for the non-Linear module: weight_scale is a
single-element scalar despite the CHANNEL strategy. -/
def c9Result : InitResult :=
  { attachments :=
      [{ base := "weight", suffix := "scale", shape := [1],
         dtype := .float32, device := "cpu", fill := .empty },
       { base := "weight", suffix := "zero_point", shape := [1],
         dtype := .int8, device := "cpu", fill := .zeros }] }

/-- Witness for C9 on a concrete non-Linear module with CHANNEL
strategy. -/
theorem c9_non_linear_weight_scale_scalar_witness :
    (∀ a ∈ c9Result.attachments, a.base = "weight" →
      a.suffix = "scale" → a.shape = [1]) ∧
    initialize_module_for_quantization c9Module (some c9Scheme) none true
      none false = .ok c9Result :=
  ⟨c9_non_linear_weight_scale_scalar c9Module c9Scheme
      { strategy := .channel, group_size := some (-1) } none true none
      false c9Result rfl rfl rfl (Or.inl rfl) rfl,
   rfl⟩

/-- C10: a role with `dynamic = LOCAL` is not skipped: no scale parameter
is created, a global_scale is created (from the TENSOR_GROUP branch), and
a zero-filled zero_point of the full inferred shape is still created
whenever force_zero_point holds or the spec is asymmetric; in contrast a
role with `dynamic = True` creates no parameter at all. -/
theorem c10_local_dynamic_init (m : PyModule) (b : String)
    (args : QuantizationArgs) (ws : Option (List Nat)) (fzp : Bool)
    (sd : Option Dtype) :
    (∀ r, args.dynamic = .loc → args.strategy = .tensor_group →
      _initialize_scale_zero_point m b args ws fzp sd = .ok r →
      (∀ a ∈ r.attachments, a.suffix ≠ "scale") ∧
      (∃ a ∈ r.attachments, a.suffix = "global_scale") ∧
      ((fzp = true ∨ args.symmetric = false) →
        ∃ shape warns,
          infer_expected_shape args b ws = .ok (shape, warns) ∧
          ∃ a ∈ r.attachments, a.suffix = "zero_point" ∧
            a.fill = .zeros ∧ a.shape = shape)) ∧
    (args.dynamic = .on →
      _initialize_scale_zero_point m b args ws fzp sd =
        .ok { attachments := [], warnings := [] }) := by
  constructor
  · intro r hloc hstrat h
    obtain ⟨shape, warns, scaleD, zpD, gidx, hinf, hres, hgid, hr⟩ :=
      szp_ok_decomp m b args ws fzp sd r h (by simp [hloc])
    subst hr
    refine ⟨?_, ?_, ?_⟩
    · intro a ha
      simp only [List.append_assoc, List.mem_append] at ha
      rcases ha with ha | ha | ha | ha
      · have hsuf : a.suffix = "global_scale" := by
          rw [mem_ite_singleton ha]
        rw [hsuf]
        decide
      · rw [if_neg (by simp [hloc])] at ha
        simp at ha
      · have hsuf : a.suffix = "zero_point" := by
          rw [mem_ite_singleton ha]
        rw [hsuf]
        decide
      · have hsuf := g_idx_attachments_suffix _ _ _ _ _ hgid a ha
        rw [hsuf]
        decide
    · refine ⟨({ base := b, suffix := "global_scale", shape := [1],
                 dtype := .float32, device := m.execDevice,
                 fill := .empty } : Attachment), ?_, rfl⟩
      simp only [List.append_assoc, List.mem_append, hstrat, if_pos rfl]
      exact Or.inl (by simp)
    · intro hzp
      refine ⟨shape, warns, hinf,
        ({ base := b, suffix := "zero_point", shape := shape,
           dtype := zpD, device := m.execDevice,
           fill := .zeros } : Attachment), ?_, rfl, rfl, rfl⟩
      have hcond : (fzp || !args.symmetric) = true := by
        rcases hzp with h' | h' <;> simp [h']
      simp only [List.append_assoc, List.mem_append, hcond, if_pos rfl]
      exact Or.inr (Or.inr (Or.inl (by simp)))
  · intro hd
    exact szp_dynamic_on m b args ws fzp sd hd

/-- NVFP4-style input-activation spec: fp4, TENSOR_GROUP, LOCAL
dynamic. -/
def c10Args : QuantizationArgs :=
  { num_bits := 4, type := .float, strategy := .tensor_group,
    group_size := some 16, dynamic := .loc }

/-- A TOKEN, fully dynamic input-activation spec. -/
def c10ArgsOn : QuantizationArgs := { strategy := .token, dynamic := .on }

/-- Attachments for a LOCAL-dynamic TENSOR_GROUP input role: only a
global_scale and a zero-filled zero_point, no scale. -/
def c10Result : InitResult :=
  { attachments :=
      [{ base := "input", suffix := "global_scale", shape := [1],
         dtype := .float32, device := "cpu", fill := .empty },
       { base := "input", suffix := "zero_point", shape := [1],
         dtype := .float8_e4m3fn, device := "cpu", fill := .zeros }] }

/-- Witness for C10 on a concrete LOCAL-dynamic spec and a concrete
fully dynamic spec. -/
theorem c10_local_dynamic_init_witness :
    ((∀ a ∈ c10Result.attachments, a.suffix ≠ "scale") ∧
      (∃ a ∈ c10Result.attachments, a.suffix = "global_scale") ∧
      ((true = true ∨ c10Args.symmetric = false) →
        ∃ shape warns,
          infer_expected_shape c10Args "input" none = .ok (shape, warns) ∧
          ∃ a ∈ c10Result.attachments, a.suffix = "zero_point" ∧
            a.fill = .zeros ∧ a.shape = shape)) ∧
    _initialize_scale_zero_point c2Module "input" c10ArgsOn none true
      none = .ok { attachments := [], warnings := [] } :=
  ⟨(c10_local_dynamic_init c2Module "input" c10Args none true none).1
      c10Result rfl rfl rfl,
   (c10_local_dynamic_init c2Module "input" c10ArgsOn none true none).2
      rfl⟩

/-- Python `torch.sign` on a rational element: -1, 0 or 1. -/
def sgn (x : ℚ) : ℚ := if 0 < x then 1 else if x < 0 then -1 else 0

/-- The mask chain of `FP4_E2M1_DATA.cast_to_fp4` (quant_args.py) on a
non-negative magnitude.  The Python code applies the masks sequentially
in place, but a value written by an earlier mask is never matched by a
later mask, so the sequential updates coincide with this single case
split on the original magnitude. -/
def fp4_abs_level (a : ℚ) : ℚ :=
  if 0 ≤ a ∧ a ≤ 1/4 then 0
  else if 1/4 < a ∧ a < 3/4 then 1/2
  else if 3/4 ≤ a ∧ a ≤ 5/4 then 1
  else if 5/4 < a ∧ a < 7/4 then 3/2
  else if 7/4 ≤ a ∧ a ≤ 5/2 then 2
  else if 5/2 < a ∧ a < 7/2 then 3
  else if 7/2 ≤ a ∧ a ≤ 5 then 4
  else if 5 < a then 6
  else a

/-- `FP4_E2M1_DATA.cast_to_fp4`: map the magnitude to its level and
restore the original sign. -/
def cast_to_fp4 (x : ℚ) : ℚ := fp4_abs_level |x| * sgn x

/-- `torch.round` on one element: round half to even. -/
def torch_round (x : ℚ) : ℚ :=
  let f : Int := ⌊x⌋
  let frac := x - f
  if frac < 1/2 then f
  else if 1/2 < frac then f + 1
  else if f % 2 = 0 then f else f + 1

/-- `round_to_quantized_type` (quant_args.py) on one tensor element
carrying its dtype.  The FLOAT/8-bit branch delegates to the
hardware/library float8 cast, taken as the parameter `castFp8`; the
result is cast back to the input's original dtype. -/
def round_to_quantized_type (castFp8 : ℚ → ℚ) (x : ℚ) (dt : Dtype)
    (args : QuantizationArgs) : Except String (ℚ × Dtype) :=
  match args.type with
  | .float =>
    if args.num_bits = 8 then .ok (castFp8 x, dt)
    else if args.num_bits = 4 then .ok (cast_to_fp4 x, dt)
    else .error "NotImplementedError: Only num_bits in (4, 8) are supported"
  | .int => .ok (torch_round x, dt)

theorem fp4_level_zero (a : ℚ) (h0 : 0 ≤ a) (h : a ≤ 1/4) :
    fp4_abs_level a = 0 := by
  unfold fp4_abs_level
  rw [if_pos ⟨h0, h⟩]

theorem fp4_level_half (a : ℚ) (h1 : 1/4 < a) (h2 : a < 3/4) :
    fp4_abs_level a = 1/2 := by
  unfold fp4_abs_level
  rw [if_neg (by rintro ⟨h', hr⟩; linarith), if_pos ⟨h1, h2⟩]

theorem fp4_level_one (a : ℚ) (h1 : 3/4 ≤ a) (h2 : a ≤ 5/4) :
    fp4_abs_level a = 1 := by
  unfold fp4_abs_level
  rw [if_neg (by rintro ⟨h', hr⟩; linarith),
    if_neg (by rintro ⟨h', hr⟩; linarith), if_pos ⟨h1, h2⟩]

theorem fp4_level_threehalf (a : ℚ) (h1 : 5/4 < a) (h2 : a < 7/4) :
    fp4_abs_level a = 3/2 := by
  unfold fp4_abs_level
  rw [if_neg (by rintro ⟨h', hr⟩; linarith),
    if_neg (by rintro ⟨h', hr⟩; linarith),
    if_neg (by rintro ⟨h', hr⟩; linarith), if_pos ⟨h1, h2⟩]

theorem fp4_level_two (a : ℚ) (h1 : 7/4 ≤ a) (h2 : a ≤ 5/2) :
    fp4_abs_level a = 2 := by
  unfold fp4_abs_level
  rw [if_neg (by rintro ⟨h', hr⟩; linarith),
    if_neg (by rintro ⟨h', hr⟩; linarith),
    if_neg (by rintro ⟨h', hr⟩; linarith),
    if_neg (by rintro ⟨h', hr⟩; linarith), if_pos ⟨h1, h2⟩]

theorem fp4_level_three (a : ℚ) (h1 : 5/2 < a) (h2 : a < 7/2) :
    fp4_abs_level a = 3 := by
  unfold fp4_abs_level
  rw [if_neg (by rintro ⟨h', hr⟩; linarith),
    if_neg (by rintro ⟨h', hr⟩; linarith),
    if_neg (by rintro ⟨h', hr⟩; linarith),
    if_neg (by rintro ⟨h', hr⟩; linarith),
    if_neg (by rintro ⟨h', hr⟩; linarith), if_pos ⟨h1, h2⟩]

theorem fp4_level_four (a : ℚ) (h1 : 7/2 ≤ a) (h2 : a ≤ 5) :
    fp4_abs_level a = 4 := by
  unfold fp4_abs_level
  rw [if_neg (by rintro ⟨h', hr⟩; linarith),
    if_neg (by rintro ⟨h', hr⟩; linarith),
    if_neg (by rintro ⟨h', hr⟩; linarith),
    if_neg (by rintro ⟨h', hr⟩; linarith),
    if_neg (by rintro ⟨h', hr⟩; linarith),
    if_neg (by rintro ⟨h', hr⟩; linarith), if_pos ⟨h1, h2⟩]

theorem fp4_level_six (a : ℚ) (h : 5 < a) : fp4_abs_level a = 6 := by
  unfold fp4_abs_level
  rw [if_neg (by rintro ⟨h', hr⟩; linarith),
    if_neg (by rintro ⟨h', hr⟩; linarith),
    if_neg (by rintro ⟨h', hr⟩; linarith),
    if_neg (by rintro ⟨h', hr⟩; linarith),
    if_neg (by rintro ⟨h', hr⟩; linarith),
    if_neg (by rintro ⟨h', hr⟩; linarith),
    if_neg (by rintro ⟨h', hr⟩; linarith), if_pos h]

/-- C4: for a FLOAT 4-bit spec, `round_to_quantized_type` maps each
element's magnitude into the level set by the stated thresholds, restores
the original sign, and keeps the original dtype. -/
theorem c4_fp4_rounding (castFp8 : ℚ → ℚ) (args : QuantizationArgs)
    (x : ℚ) (dt : Dtype) (ht : args.type = .float)
    (hb : args.num_bits = 4) :
    round_to_quantized_type castFp8 x dt args =
      .ok (fp4_abs_level |x| * sgn x, dt) ∧
    fp4_abs_level |x| ∈ ([0, 1/2, 1, 3/2, 2, 3, 4, 6] : List ℚ) ∧
    (|x| ≤ 1/4 → fp4_abs_level |x| = 0) ∧
    (1/4 < |x| ∧ |x| < 3/4 → fp4_abs_level |x| = 1/2) ∧
    (3/4 ≤ |x| ∧ |x| ≤ 5/4 → fp4_abs_level |x| = 1) ∧
    (5/4 < |x| ∧ |x| < 7/4 → fp4_abs_level |x| = 3/2) ∧
    (7/4 ≤ |x| ∧ |x| ≤ 5/2 → fp4_abs_level |x| = 2) ∧
    (5/2 < |x| ∧ |x| < 7/2 → fp4_abs_level |x| = 3) ∧
    (7/2 ≤ |x| ∧ |x| ≤ 5 → fp4_abs_level |x| = 4) ∧
    (5 < |x| → fp4_abs_level |x| = 6) := by
  have h0 : (0 : ℚ) ≤ |x| := abs_nonneg x
  refine ⟨?_, ?_, fun h => fp4_level_zero _ h0 h,
    fun h => fp4_level_half _ h.1 h.2, fun h => fp4_level_one _ h.1 h.2,
    fun h => fp4_level_threehalf _ h.1 h.2,
    fun h => fp4_level_two _ h.1 h.2, fun h => fp4_level_three _ h.1 h.2,
    fun h => fp4_level_four _ h.1 h.2, fun h => fp4_level_six _ h⟩
  · unfold round_to_quantized_type cast_to_fp4
    simp only [ht, hb]
    rw [if_neg (show ¬((4 : Int) = 8) by norm_num), if_pos trivial]
  · rcases le_or_lt |x| (1/4) with h1 | h1
    · rw [fp4_level_zero _ h0 h1]; simp
    · rcases lt_or_le |x| (3/4) with h2 | h2
      · rw [fp4_level_half _ h1 h2]; simp
      · rcases le_or_lt |x| (5/4) with h3 | h3
        · rw [fp4_level_one _ h2 h3]; simp
        · rcases lt_or_le |x| (7/4) with h4 | h4
          · rw [fp4_level_threehalf _ h3 h4]; simp
          · rcases le_or_lt |x| (5/2) with h5 | h5
            · rw [fp4_level_two _ h4 h5]; simp
            · rcases lt_or_le |x| (7/2) with h6 | h6
              · rw [fp4_level_three _ h5 h6]; simp
              · rcases le_or_lt |x| 5 with h7 | h7
                · rw [fp4_level_four _ h6 h7]; simp
                · rw [fp4_level_six _ h7]; simp

/-- A FLOAT 4-bit spec (as in the fp4 presets). -/
def c4Args : QuantizationArgs :=
  { num_bits := 4, type := .float, strategy := .tensor }

/-- Witness for C4: 0.3 maps to 0.5, 1.9 to 2.0, 5.5 to 6.0 (and -5.5 to
-6.0), with dtype preserved. -/
theorem c4_fp4_rounding_witness :
    (round_to_quantized_type id (3/10) .float16 c4Args =
      .ok (fp4_abs_level |(3/10 : ℚ)| * sgn (3/10), .float16) ∧
     fp4_abs_level |(3/10 : ℚ)| ∈
       ([0, 1/2, 1, 3/2, 2, 3, 4, 6] : List ℚ) ∧
     (|(3/10 : ℚ)| ≤ 1/4 → fp4_abs_level |(3/10 : ℚ)| = 0) ∧
     (1/4 < |(3/10 : ℚ)| ∧ |(3/10 : ℚ)| < 3/4 →
       fp4_abs_level |(3/10 : ℚ)| = 1/2) ∧
     (3/4 ≤ |(3/10 : ℚ)| ∧ |(3/10 : ℚ)| ≤ 5/4 →
       fp4_abs_level |(3/10 : ℚ)| = 1) ∧
     (5/4 < |(3/10 : ℚ)| ∧ |(3/10 : ℚ)| < 7/4 →
       fp4_abs_level |(3/10 : ℚ)| = 3/2) ∧
     (7/4 ≤ |(3/10 : ℚ)| ∧ |(3/10 : ℚ)| ≤ 5/2 →
       fp4_abs_level |(3/10 : ℚ)| = 2) ∧
     (5/2 < |(3/10 : ℚ)| ∧ |(3/10 : ℚ)| < 7/2 →
       fp4_abs_level |(3/10 : ℚ)| = 3) ∧
     (7/2 ≤ |(3/10 : ℚ)| ∧ |(3/10 : ℚ)| ≤ 5 →
       fp4_abs_level |(3/10 : ℚ)| = 4) ∧
     (5 < |(3/10 : ℚ)| → fp4_abs_level |(3/10 : ℚ)| = 6)) ∧
    cast_to_fp4 (3/10) = 1/2 ∧ cast_to_fp4 (19/10) = 2 ∧
    cast_to_fp4 (11/2) = 6 ∧ cast_to_fp4 (-(11/2)) = -6 :=
  ⟨c4_fp4_rounding id c4Args (3/10) .float16 rfl rfl,
   by
    unfold cast_to_fp4
    rw [abs_of_pos (show (0 : ℚ) < 3/10 by norm_num),
      fp4_level_half _ (by norm_num) (by norm_num)]
    unfold sgn
    rw [if_pos (show (0 : ℚ) < 3/10 by norm_num), mul_one],
   by
    unfold cast_to_fp4
    rw [abs_of_pos (show (0 : ℚ) < 19/10 by norm_num),
      fp4_level_two _ (by norm_num) (by norm_num)]
    unfold sgn
    rw [if_pos (show (0 : ℚ) < 19/10 by norm_num), mul_one],
   by
    unfold cast_to_fp4
    rw [abs_of_pos (show (0 : ℚ) < 11/2 by norm_num),
      fp4_level_six _ (by norm_num)]
    unfold sgn
    rw [if_pos (show (0 : ℚ) < 11/2 by norm_num), mul_one],
   by
    unfold cast_to_fp4
    rw [abs_neg, abs_of_pos (show (0 : ℚ) < 11/2 by norm_num),
      fp4_level_six _ (by norm_num)]
    unfold sgn
    rw [if_neg (show ¬((0 : ℚ) < -(11/2)) by norm_num),
      if_pos (show (-(11/2) : ℚ) < 0 by norm_num)]
    norm_num⟩

/-- `QuantizationScheme.validate_model_after` (quant_scheme.py) as the
scheme constructor: activation ordering may not be set on input or output
activation specs.  The non-fatal warning about differing GROUP sizes for
weights and inputs does not change the resulting object and is not
modelled. -/
def mkQuantizationScheme (targets : List String)
    (weights input_activations output_activations :
      Option QuantizationArgs) : Except String QuantizationScheme :=
  if (match input_activations with
      | some a => a.actorder.isSome
      | none => false) then
    .error "Cannot apply actorder to input activations"
  else if (match output_activations with
      | some a => a.actorder.isSome
      | none => false) then
    .error "Cannot apply actorder to output activations"
  else
    .ok { targets := targets, weights := weights,
          input_activations := input_activations,
          output_activations := output_activations }

/-- A `QuantizationArgs` constructed at import time for a preset: in
Python a validation failure would abort the import, so the template holds
the validated object. -/
def qarg (r : RawQuantizationArgs) : Option QuantizationArgs :=
  (mkQuantizationArgs r).toOption

/-- One preset template: role name to pre-built argument spec
(quant_scheme.py, the dicts UNQUANTIZED, W8A16, ...). -/
structure PresetTemplate where
  weights : Option QuantizationArgs := none
  input_activations : Option QuantizationArgs := none
  output_activations : Option QuantizationArgs := none

def rawNVFP4w : RawQuantizationArgs :=
  { num_bits := 4, type := .float, strategy := some .tensor_group,
    symmetric := true, dynamic := .off, group_size := some 16 }

def rawNVFP4in : RawQuantizationArgs :=
  { num_bits := 4, type := .float, strategy := some .tensor_group,
    symmetric := true, dynamic := .loc, group_size := some 16 }

def rawIntTokenDyn : RawQuantizationArgs :=
  { num_bits := 8, type := .int, strategy := some .token,
    symmetric := true, dynamic := .on, observer := none }

def rawW8A16w : RawQuantizationArgs :=
  { num_bits := 8, type := .int, strategy := some .channel,
    symmetric := true, dynamic := .off }

def rawW4A16w : RawQuantizationArgs :=
  { num_bits := 4, type := .int, strategy := some .group,
    group_size := some 128, symmetric := true, dynamic := .off }

def rawW4A16asymw : RawQuantizationArgs :=
  { num_bits := 4, type := .int, strategy := some .group,
    group_size := some 128, symmetric := false, dynamic := .off }

def rawFP8tensor : RawQuantizationArgs :=
  { num_bits := 8, type := .float, strategy := some .tensor,
    symmetric := true, dynamic := .off }

def rawFP8channel : RawQuantizationArgs :=
  { num_bits := 8, type := .float, strategy := some .channel,
    symmetric := true, dynamic := .off }

def rawFP8tokenDyn : RawQuantizationArgs :=
  { num_bits := 8, type := .float, strategy := some .token,
    symmetric := true, dynamic := .on, observer := none }

def rawFP8blockw : RawQuantizationArgs :=
  { num_bits := 8, type := .float, strategy := some .block,
    symmetric := true, dynamic := .off,
    block_structure := some [128, 128] }

def rawFP8groupDyn : RawQuantizationArgs :=
  { num_bits := 8, type := .float, strategy := some .group,
    symmetric := true, dynamic := .on, observer := none,
    group_size := some 128 }

def UNQUANTIZED : PresetTemplate := {}

def NVFP4A16 : PresetTemplate := { weights := qarg rawNVFP4w }

def NVFP4 : PresetTemplate :=
  { weights := qarg rawNVFP4w, input_activations := qarg rawNVFP4in }

def INT8_W8A8 : PresetTemplate :=
  { weights := qarg rawW8A16w, input_activations := qarg rawIntTokenDyn }

def W8A16 : PresetTemplate := { weights := qarg rawW8A16w }

def W4A16 : PresetTemplate := { weights := qarg rawW4A16w }

def W4A16_ASYM : PresetTemplate := { weights := qarg rawW4A16asymw }

def INT8_W4A8 : PresetTemplate :=
  { weights := qarg rawW4A16w, input_activations := qarg rawIntTokenDyn }

def FP8 : PresetTemplate :=
  { weights := qarg rawFP8tensor, input_activations := qarg rawFP8tensor }

def FP8_DYNAMIC : PresetTemplate :=
  { weights := qarg rawFP8channel,
    input_activations := qarg rawFP8tokenDyn }

def FP8_BLOCK : PresetTemplate :=
  { weights := qarg rawFP8blockw,
    input_activations := qarg rawFP8groupDyn }

/-- The preset registry (quant_scheme.py, `PRESET_SCHEMES`), in source
order; "INT8" is an alias for "W8A8". -/
def PRESET_SCHEMES : List (String × PresetTemplate) :=
  [("UNQUANTIZED", UNQUANTIZED),
   ("W8A16", W8A16),
   ("W4A16", W4A16),
   ("W4A16_ASYM", W4A16_ASYM),
   ("W8A8", INT8_W8A8),
   ("INT8", INT8_W8A8),
   ("W4A8", INT8_W4A8),
   ("FP8", FP8),
   ("FP8_DYNAMIC", FP8_DYNAMIC),
   ("FP8_BLOCK", FP8_BLOCK),
   ("NVFP4A16", NVFP4A16),
   ("NVFP4", NVFP4)]

/-- The valid preset names, `list(PRESET_SCHEMES.keys())`. -/
def PRESET_NAMES : List String := PRESET_SCHEMES.map Prod.fst

/-- The failure modes of `preset_name_to_scheme`: the KeyError carrying
the unknown (upper-cased) name together with the full list of valid
names, or a scheme-validation error. -/
inductive PresetError where
  | unknown (name : String) (validNames : List String)
  | schemeInvalid (msg : String)
deriving DecidableEq

/-- `preset_name_to_scheme` (quant_scheme.py): case-insensitive lookup,
then construction of a fresh scheme binding the given targets.  The
deepcopy of the template is identity in this pure model. -/
def preset_name_to_scheme (name : String) (targets : List String) :
    Except PresetError QuantizationScheme :=
  match PRESET_SCHEMES.lookup (strUpper name) with
  | none => .error (.unknown (strUpper name) PRESET_NAMES)
  | some t =>
    match mkQuantizationScheme targets t.weights t.input_activations
        t.output_activations with
    | .ok s => .ok s
    | .error e => .error (.schemeInvalid e)

theorem lookup_eq_none_of_not_mem {β : Type} (key : String)
    (l : List (String × β)) (h : key ∉ l.map Prod.fst) :
    l.lookup key = none := by
  induction l with
  | nil => rfl
  | cons p t ih =>
    simp only [List.map_cons, List.mem_cons] at h
    push_neg at h
    have hb : (key == p.1) = false := beq_eq_false_iff_ne.mpr h.1
    simp [List.lookup, hb, ih h.2]

/-- C8: preset lookup is case-insensitive; any casing of "w8a16" yields a
scheme with CHANNEL weight strategy and no input activations; a name
whose upper-casing is not registered fails with the full list of valid
names carried in the error. -/
theorem c8_preset_lookup (name : String) (targets : List String) :
    (strUpper name = "W8A16" →
      ∃ s, preset_name_to_scheme name targets = .ok s ∧
        s.weights.map QuantizationArgs.strategy =
          some QuantizationStrategy.channel ∧
        s.input_activations = none) ∧
    (strUpper name ∉ PRESET_NAMES →
      preset_name_to_scheme name targets =
        .error (.unknown (strUpper name) PRESET_NAMES)) := by
  constructor
  · intro h
    unfold preset_name_to_scheme
    rw [h]
    exact ⟨{ targets := targets, weights := W8A16.weights,
             input_activations := W8A16.input_activations,
             output_activations := W8A16.output_activations },
      rfl, rfl, rfl⟩
  · intro h
    unfold preset_name_to_scheme
    rw [lookup_eq_none_of_not_mem (strUpper name) PRESET_SCHEMES h]

/-- Witness for C8 at the concrete names "w8a16" and "BOGUS". -/
theorem c8_preset_lookup_witness :
    (∃ s, preset_name_to_scheme "w8a16" ["Linear"] = .ok s ∧
      s.weights.map QuantizationArgs.strategy =
        some QuantizationStrategy.channel ∧
      s.input_activations = none) ∧
    preset_name_to_scheme "BOGUS" ["Linear"] =
      .error (.unknown "BOGUS" PRESET_NAMES) ∧
    PRESET_NAMES =
      ["UNQUANTIZED", "W8A16", "W4A16", "W4A16_ASYM", "W8A8", "INT8",
       "W4A8", "FP8", "FP8_DYNAMIC", "FP8_BLOCK", "NVFP4A16", "NVFP4"] :=
  ⟨(c8_preset_lookup "w8a16" ["Linear"]).1 rfl,
   by
    have h := (c8_preset_lookup "BOGUS" ["Linear"]).2 (by decide)
    rw [show strUpper "BOGUS" = "BOGUS" from rfl] at h
    exact h,
   rfl⟩

/-- The slice of `TransformArgs` that `HadamardTransform.forward`
consults: the application location and whether the transform is applied
in inverse (transposed) form. -/
structure TransformArgs where
  location : String
  inverse : Bool := false
deriving DecidableEq

/-- Modelled from the spec: `apply_transform_weight` lives in
`transform/utils/matrix`, which is not among the sources.  Per spec
section 4.4 it applies the (possibly permuted and transposed) matrix to
the input value, with axis and orientation rules per location and layer
type delegated to an external collaborator; it is modelled as the
matrix-vector product. -/
def apply_transform_weight {n : ℕ} {α : Type}
    [NonUnitalNonAssocSemiring α] (W : Matrix (Fin n) (Fin n) α)
    (v : Fin n → α) (location : String) (module_type : String) :
    Fin n → α :=
  Matrix.mulVec W v

/-- `HadamardTransform` (transform/factory/hadamard.py): a reference to
the shared base matrix, the optional shared permutation, the application
arguments, the owning module's type, and `_scale`, which `__init__` sets
to the square root of the matrix dimension (see the C5 theorem, which
fixes `scale = Real.sqrt n`). -/
structure HadamardTransform (n : ℕ) (α : Type) where
  weight : Matrix (Fin n) (Fin n) α
  perm : Option (Fin n → Fin n)
  args : TransformArgs
  module_type : String
  scale : α

/-- `HadamardTransform.forward`: permute rows and columns by the
permutation if set (`weight[perm][:, perm]`), transpose if inverse, apply
to the value, divide by `_scale`. -/
def HadamardTransform.forward {n : ℕ} {α : Type} [DivisionRing α]
    (t : HadamardTransform n α) (value : Fin n → α) : Fin n → α :=
  let w := match t.perm with
    | some p => t.weight.submatrix p p
    | none => t.weight
  let w := if t.args.inverse then w.transpose else w
  fun i => apply_transform_weight w value t.args.location t.module_type i
    / t.scale

/-- C5: with the scale set to the square root of the matrix dimension
(as `__init__` does), forward applies `H[p][:, p]` when a permutation is
set, transposes when `inverse` is set, and divides by the square root of
`n`; in particular with `inverse = True` and no permutation the result is
the transpose of `H` applied to `v`, divided by the square root of
`n`. -/
theorem c5_hadamard_forward (n : ℕ) (H : Matrix (Fin n) (Fin n) ℝ)
    (p : Fin n → Fin n) (v : Fin n → ℝ) (loc mt : String) (s : ℝ)
    (hs : s = Real.sqrt n) :
    (∀ inv, HadamardTransform.forward ⟨H, some p, ⟨loc, inv⟩, mt, s⟩ v =
      fun i => apply_transform_weight
        (if inv then (H.submatrix p p).transpose else H.submatrix p p) v
        loc mt i / Real.sqrt n) ∧
    (∀ i j, H.submatrix p p i j = H (p i) (p j)) ∧
    (HadamardTransform.forward ⟨H, none, ⟨loc, true⟩, mt, s⟩ v =
      fun i => (Matrix.mulVec H.transpose v) i / Real.sqrt n) := by
  subst hs
  refine ⟨fun inv => ?_, fun i j => rfl, rfl⟩
  cases inv <;> rfl

/-- The 1-dimensional all-ones base matrix used by the C5 witness. -/
def c5H : Matrix (Fin 1) (Fin 1) ℝ := Matrix.of fun _ _ => 1

/-- The 1-dimensional value vector used by the C5 witness. -/
def c5v : Fin 1 → ℝ := fun _ => 1

/-- Witness for C5 at dimension 1 with the all-ones matrix. -/
theorem c5_hadamard_forward_witness :
    (∀ inv, HadamardTransform.forward
        ⟨c5H, some id, ⟨"weight", inv⟩, "Linear",
          Real.sqrt ((1 : ℕ) : ℝ)⟩ c5v =
      fun i => apply_transform_weight
        (if inv then (c5H.submatrix id id).transpose
        else c5H.submatrix id id) c5v "weight" "Linear" i /
          Real.sqrt ((1 : ℕ) : ℝ)) ∧
    (∀ i j : Fin 1, c5H.submatrix id id i j = c5H (id i) (id j)) ∧
    (HadamardTransform.forward
        ⟨c5H, none, ⟨"weight", true⟩, "Linear",
          Real.sqrt ((1 : ℕ) : ℝ)⟩ c5v =
      fun i => (Matrix.mulVec c5H.transpose c5v) i /
        Real.sqrt ((1 : ℕ) : ℝ)) :=
  c5_hadamard_forward 1 c5H id c5v "weight" "Linear"
    (Real.sqrt ((1 : ℕ) : ℝ)) rfl
